import Mathlib

/-!
Verification of the workflow-pattern scripts of the ai-cookbook repository
(`2-workflow-patterns/1-prompt-chaining.py` and `2-workflow-patterns/2-routing.py`).

The model gateway (`client.models.generate_content`) is an external
collaborator: we model it as an oracle that, for each stage call, returns
either a value conforming to the declared schema of the stage or a non-conforming
payload (`Parsed.malformed`, carrying the textual type of the wrong payload,
as the Python expression would appear in the assert message).  Python
`float` confidence scores are embedded as rationals, `int` as integers.
Each stage function returns the list of gateway calls it performed (its
trace) together with an `Except`: `.error` models the fatal `assert`
failure on a non-conforming payload, `.ok` a normal return.
-/

/-- Result of `completion.parsed` for a stage expecting schema `α`:
either an instance of the schema or some other payload (whose type
representation is carried for the assert message). -/
inductive Parsed (α : Type) where
  | conforming : α → Parsed α
  | malformed : String → Parsed α
deriving DecidableEq

/-- Labels for the gateway calls a run can perform, used for call traces. -/
inductive Stage where
  | extractStage
  | parseStage
  | confirmStage
  | routeStage
  | newEventStage
  | modifyEventStage
deriving DecidableEq

namespace Chaining

/-- Schema of the first LLM call (`EventExtraction` in
`1-prompt-chaining.py`): raw description, classification flag,
confidence score. -/
structure EventExtraction where
  description : String
  is_calendar_event : Bool
  confidence_score : ℚ
deriving DecidableEq

/-- Schema of the second LLM call (`EventDetails`). -/
structure EventDetails where
  name : String
  date : String
  duration_minutes : ℤ
  participants : List String
deriving DecidableEq

/-- Schema of the third LLM call (`EventConfirmation`). -/
structure EventConfirmation where
  confirmation_message : String
  calendar_link : Option String
deriving DecidableEq

/-- The model gateway as seen by `1-prompt-chaining.py`: one oracle per
stage call.  Field `confirmResp` depends on the `EventDetails` value because
the third stage sends the dumped details as text. -/
structure Gateway where
  extractResp : String → Parsed EventExtraction
  parseResp : String → Parsed EventDetails
  confirmResp : EventDetails → Parsed EventConfirmation

/-- Stage function `extract_event_info`: first LLM call; asserts the parsed payload is an
`EventExtraction`. -/
def extract_event_info (gw : Gateway) (user_input : String) :
    List Stage × Except String EventExtraction :=
  ([Stage.extractStage],
    match gw.extractResp user_input with
    | .conforming result => .ok result
    | .malformed t => .error ("Expected EventExtraction, got " ++ t))

/-- Stage function `parse_event_details`: second LLM call; asserts the parsed payload is an
`EventDetails` (the source assert message misspells "got" as "fot"). -/
def parse_event_details (gw : Gateway) (description : String) :
    List Stage × Except String EventDetails :=
  ([Stage.parseStage],
    match gw.parseResp description with
    | .conforming result => .ok result
    | .malformed t => .error ("Expected EventDetails, fot " ++ t))

/-- Stage function `generate_confirmation`: third LLM call; asserts the parsed payload is an
`EventConfirmation` (the source assert message misspells "got" as "fot"). -/
def generate_confirmation (gw : Gateway) (event_details : EventDetails) :
    List Stage × Except String EventConfirmation :=
  ([Stage.confirmStage],
    match gw.confirmResp event_details with
    | .conforming result => .ok result
    | .malformed t => .error ("Expected EventConfirmation, fot " ++ t))

/-- Orchestrator `process_calendar_request` of `1-prompt-chaining.py`: stage 1, then the
gate `not is_calendar_event or confidence_score < 0.7` (returning `None` on
failure), then stage 2 on the stage-1 description, then stage 3 on the stage-2
output. -/
def process_calendar_request (gw : Gateway) (user_input : String) :
    List Stage × Except String (Option EventConfirmation) :=
  let (t1, e1) := extract_event_info gw user_input
  match e1 with
  | .error msg => (t1, .error msg)
  | .ok initial_extraction =>
    if initial_extraction.is_calendar_event = false ∨
        initial_extraction.confidence_score < 7/10 then
      (t1, .ok none)
    else
      let (t2, e2) := parse_event_details gw initial_extraction.description
      match e2 with
      | .error msg => (t1 ++ t2, .error msg)
      | .ok event_details =>
        let (t3, e3) := generate_confirmation gw event_details
        match e3 with
        | .error msg => (t1 ++ t2 ++ t3, .error msg)
        | .ok confirmation => (t1 ++ t2 ++ t3, .ok (some confirmation))

end Chaining

namespace Routing

/-- The pydantic `Literal["new_event", "modify_event", "other"]` discriminant of
`CalendarRequestType` in `2-routing.py`; pydantic validation admits only
these three strings, so they form a sum type. -/
inductive RequestType where
  | new_event
  | modify_event
  | other
deriving DecidableEq

/-- Schema of the router LLM call (`CalendarRequestType`). -/
structure CalendarRequestType where
  request_type : RequestType
  confidence_score : ℚ
  description : String
deriving DecidableEq

/-- Schema of the LLM call of the new-event handler (`NewEventDetails`). -/
structure NewEventDetails where
  name : String
  date : String
  duration_minutes : ℤ
  participants : List String
deriving DecidableEq

/-- One requested change of an existing event (`Change`). -/
structure Change where
  field : String
  new_value : String
deriving DecidableEq

/-- Schema of the LLM call of the modify-event handler (`ModifyEventDetails`). -/
structure ModifyEventDetails where
  event_identifier : String
  changes : List Change
  participants_to_add : List String
  participants_to_remove : List String
deriving DecidableEq

/-- Final response format (`CalendarResponse`). -/
structure CalendarResponse where
  success : Bool
  message : String
  calendar_link : Option String
deriving DecidableEq

/-- The model gateway as seen by `2-routing.py`: one oracle per stage call. -/
structure Gateway where
  routeResp : String → Parsed CalendarRequestType
  newEventResp : String → Parsed NewEventDetails
  modifyEventResp : String → Parsed ModifyEventDetails

/-- Stage function `route_calendar_request`: router LLM call; asserts the parsed payload is
a `CalendarRequestType`. -/
def route_calendar_request (gw : Gateway) (user_input : String) :
    List Stage × Except String CalendarRequestType :=
  ([Stage.routeStage],
    match gw.routeResp user_input with
    | .conforming result => .ok result
    | .malformed t => .error ("Expected CalendarRequestType, got " ++ t))

/-- Handler `handle_new_event`: one LLM call extracting `NewEventDetails`, then a
locally built `CalendarResponse` (note that the source `calendar>//new` link
typo is reproduced). -/
def handle_new_event (gw : Gateway) (description : String) :
    List Stage × Except String CalendarResponse :=
  ([Stage.newEventStage],
    match gw.newEventResp description with
    | .conforming details =>
        .ok { success := true
              message := "Created new event \x27" ++ details.name ++ "\x27 for " ++
                details.date ++ " with " ++ String.intercalate ", " details.participants
              calendar_link := some ("calendar>//new?event=" ++ details.name) }
    | .malformed t => .error ("Expected NewEventDetails, got " ++ t))

/-- Handler `handle_modify_event`: one LLM call extracting `ModifyEventDetails`,
then a locally built `CalendarResponse`. -/
def handle_modify_event (gw : Gateway) (description : String) :
    List Stage × Except String CalendarResponse :=
  ([Stage.modifyEventStage],
    match gw.modifyEventResp description with
    | .conforming details =>
        .ok { success := true
              message := "Modified event \x27" ++ details.event_identifier ++
                "\x27 with the requested changes"
              calendar_link := some ("calendar://modify?event=" ++ details.event_identifier) }
    | .malformed t => .error ("Expected ModifyEventDetails, got " ++ t))

/-- Orchestrator `process_calendar_request` of `2-routing.py`: route, gate on
`confidence_score < 0.7` (returning `None`), then `match` on the
discriminant, dispatching to exactly one handler on the routed
description; the wildcard arm returns `None`. -/
def process_calendar_request (gw : Gateway) (user_input : String) :
    List Stage × Except String (Option CalendarResponse) :=
  let (t1, e1) := route_calendar_request gw user_input
  match e1 with
  | .error msg => (t1, .error msg)
  | .ok route_result =>
    if route_result.confidence_score < 7/10 then
      (t1, .ok none)
    else
      match route_result.request_type with
      | .new_event =>
          let (t2, e2) := handle_new_event gw route_result.description
          (t1 ++ t2, e2.map some)
      | .modify_event =>
          let (t2, e2) := handle_modify_event gw route_result.description
          (t1 ++ t2, e2.map some)
      | .other => (t1, .ok none)

end Routing

/-- Modelled from the spec: the JSON values into which pydantic serializes
the declared schemas ("any structured result produced by a stage must
deserialize back into its declared schema"); the pydantic library itself is
not part of the repository sources. -/
inductive JValue where
  | jstr : String → JValue
  | jbool : Bool → JValue
  | jnum : ℚ → JValue
  | jint : ℤ → JValue
  | jnull : JValue
  | jarr : List JValue → JValue
  | jobj : List (String × JValue) → JValue

/-- Look up a field of a serialized object by key. -/
def jfield (fields : List (String × JValue)) (k : String) : Option JValue :=
  (fields.find? (fun p => p.1 == k)).map (fun p => p.2)

/-- Deserialize a list of JSON strings. -/
def jloadStrs : List JValue → Option (List String)
  | [] => some []
  | .jstr s :: rest =>
    match jloadStrs rest with
    | some ss => some (s :: ss)
    | none => none
  | _ => none

/-- Deserialize a JSON array of strings. -/
def jstrList : JValue → Option (List String)
  | .jarr xs => jloadStrs xs
  | _ => none

/-- Modelled from the spec: serialization of an optional string field
(`None` becomes JSON null). -/
def jdumpOptStr : Option String → JValue
  | some s => .jstr s
  | none => .jnull

/-- Deserialize an optional string field. -/
def jloadOptStr : JValue → Option (Option String)
  | .jstr s => some (some s)
  | .jnull => some none
  | _ => none

namespace Chaining

/-- Modelled from the spec: pydantic serialization of `EventExtraction`
per its declared fields. -/
def EventExtraction.model_dump (e : EventExtraction) : JValue :=
  .jobj [("description", .jstr e.description),
         ("is_calendar_event", .jbool e.is_calendar_event),
         ("confidence_score", .jnum e.confidence_score)]

/-- Modelled from the spec: pydantic validation of a serialized
`EventExtraction`. -/
def EventExtraction.model_validate (j : JValue) : Option EventExtraction :=
  match j with
  | .jobj fields =>
    match jfield fields "description", jfield fields "is_calendar_event",
        jfield fields "confidence_score" with
    | some (.jstr d), some (.jbool b), some (.jnum c) => some ⟨d, b, c⟩
    | _, _, _ => none
  | _ => none

/-- Modelled from the spec: pydantic serialization of `EventDetails`. -/
def EventDetails.model_dump (e : EventDetails) : JValue :=
  .jobj [("name", .jstr e.name),
         ("date", .jstr e.date),
         ("duration_minutes", .jint e.duration_minutes),
         ("participants", .jarr (e.participants.map .jstr))]

/-- Modelled from the spec: pydantic validation of a serialized
`EventDetails`. -/
def EventDetails.model_validate (j : JValue) : Option EventDetails :=
  match j with
  | .jobj fields =>
    match jfield fields "name", jfield fields "date",
        jfield fields "duration_minutes", jfield fields "participants" with
    | some (.jstr n), some (.jstr d), some (.jint m), some pj =>
        (jstrList pj).map (fun ps => ⟨n, d, m, ps⟩)
    | _, _, _, _ => none
  | _ => none

/-- Modelled from the spec: pydantic serialization of `EventConfirmation`. -/
def EventConfirmation.model_dump (e : EventConfirmation) : JValue :=
  .jobj [("confirmation_message", .jstr e.confirmation_message),
         ("calendar_link", jdumpOptStr e.calendar_link)]

/-- Modelled from the spec: pydantic validation of a serialized
`EventConfirmation`. -/
def EventConfirmation.model_validate (j : JValue) : Option EventConfirmation :=
  match j with
  | .jobj fields =>
    match jfield fields "confirmation_message",
        (jfield fields "calendar_link").bind jloadOptStr with
    | some (.jstr m), some l => some ⟨m, l⟩
    | _, _ => none
  | _ => none

end Chaining

namespace Routing

/-- Serialization of the `request_type` literal. -/
def RequestType.toStr : RequestType → String
  | .new_event => "new_event"
  | .modify_event => "modify_event"
  | .other => "other"

/-- Validation of the `request_type` literal: only the three declared
strings are admitted. -/
def RequestType.ofStr (s : String) : Option RequestType :=
  if s = "new_event" then some .new_event
  else if s = "modify_event" then some .modify_event
  else if s = "other" then some .other
  else none

/-- Modelled from the spec: pydantic serialization of
`CalendarRequestType`. -/
def CalendarRequestType.model_dump (r : CalendarRequestType) : JValue :=
  .jobj [("request_type", .jstr r.request_type.toStr),
         ("confidence_score", .jnum r.confidence_score),
         ("description", .jstr r.description)]

/-- Modelled from the spec: pydantic validation of a serialized
`CalendarRequestType`. -/
def CalendarRequestType.model_validate (j : JValue) : Option CalendarRequestType :=
  match j with
  | .jobj fields =>
    match (jfield fields "request_type").bind
        (fun j => match j with | .jstr s => RequestType.ofStr s | _ => none),
        jfield fields "confidence_score", jfield fields "description" with
    | some t, some (.jnum c), some (.jstr d) => some ⟨t, c, d⟩
    | _, _, _ => none
  | _ => none

/-- Modelled from the spec: pydantic serialization of `NewEventDetails`. -/
def NewEventDetails.model_dump (e : NewEventDetails) : JValue :=
  .jobj [("name", .jstr e.name),
         ("date", .jstr e.date),
         ("duration_minutes", .jint e.duration_minutes),
         ("participants", .jarr (e.participants.map .jstr))]

/-- Modelled from the spec: pydantic validation of a serialized
`NewEventDetails`. -/
def NewEventDetails.model_validate (j : JValue) : Option NewEventDetails :=
  match j with
  | .jobj fields =>
    match jfield fields "name", jfield fields "date",
        jfield fields "duration_minutes", jfield fields "participants" with
    | some (.jstr n), some (.jstr d), some (.jint m), some pj =>
        (jstrList pj).map (fun ps => ⟨n, d, m, ps⟩)
    | _, _, _, _ => none
  | _ => none

/-- Modelled from the spec: pydantic serialization of `Change`. -/
def Change.model_dump (c : Change) : JValue :=
  .jobj [("field", .jstr c.field), ("new_value", .jstr c.new_value)]

/-- Modelled from the spec: pydantic validation of a serialized `Change`. -/
def Change.model_validate (j : JValue) : Option Change :=
  match j with
  | .jobj fields =>
    match jfield fields "field", jfield fields "new_value" with
    | some (.jstr f), some (.jstr v) => some ⟨f, v⟩
    | _, _ => none
  | _ => none

/-- Deserialize a list of serialized `Change` objects. -/
def jloadChanges : List JValue → Option (List Change)
  | [] => some []
  | j :: rest =>
    match Change.model_validate j, jloadChanges rest with
    | some c, some cs => some (c :: cs)
    | _, _ => none

/-- Modelled from the spec: pydantic serialization of `ModifyEventDetails`. -/
def ModifyEventDetails.model_dump (e : ModifyEventDetails) : JValue :=
  .jobj [("event_identifier", .jstr e.event_identifier),
         ("changes", .jarr (e.changes.map Change.model_dump)),
         ("participants_to_add", .jarr (e.participants_to_add.map .jstr)),
         ("participants_to_remove", .jarr (e.participants_to_remove.map .jstr))]

/-- Modelled from the spec: pydantic validation of a serialized
`ModifyEventDetails`. -/
def ModifyEventDetails.model_validate (j : JValue) : Option ModifyEventDetails :=
  match j with
  | .jobj fields =>
    match jfield fields "event_identifier", jfield fields "changes",
        jfield fields "participants_to_add", jfield fields "participants_to_remove" with
    | some (.jstr i), some (.jarr cj), some paj, some prj =>
        (jloadChanges cj).bind (fun cs =>
          (jstrList paj).bind (fun pa =>
            (jstrList prj).map (fun pr => ⟨i, cs, pa, pr⟩)))
    | _, _, _, _ => none
  | _ => none

/-- Modelled from the spec: pydantic serialization of `CalendarResponse`. -/
def CalendarResponse.model_dump (r : CalendarResponse) : JValue :=
  .jobj [("success", .jbool r.success),
         ("message", .jstr r.message),
         ("calendar_link", jdumpOptStr r.calendar_link)]

/-- Modelled from the spec: pydantic validation of a serialized
`CalendarResponse`. -/
def CalendarResponse.model_validate (j : JValue) : Option CalendarResponse :=
  match j with
  | .jobj fields =>
    match jfield fields "success", jfield fields "message",
        (jfield fields "calendar_link").bind jloadOptStr with
    | some (.jbool s), some (.jstr m), some l => some ⟨s, m, l⟩
    | _, _, _ => none
  | _ => none

end Routing

/-- A stage label is a handler invocation of the routing workflow. -/
def Stage.isHandler : Stage → Bool
  | .newEventStage => true
  | .modifyEventStage => true
  | _ => false

/-! Concrete gateway oracles used to instantiate the theorems. -/

/-- A concrete `EventDetails` value. -/
def dPass : Chaining.EventDetails :=
  { name := "Roadmap sync"
    date := "2026-01-06T14:00:00"
    duration_minutes := 60
    participants := ["Alice", "Bob"] }

/-- A concrete `EventConfirmation` value. -/
def cPass : Chaining.EventConfirmation :=
  { confirmation_message := "Your meeting is booked. Susie"
    calendar_link := some "cal-link" }

/-- Chaining gateway whose extraction passes the gate and whose later
stages conform. -/
def cgwPass : Chaining.Gateway :=
  { extractResp := fun _ => .conforming ⟨"team meeting", true, 9/10⟩
    parseResp := fun _ => .conforming dPass
    confirmResp := fun _ => .conforming cPass }

/-- Chaining gateway classifying the input as not a calendar event. -/
def cgwNeg : Chaining.Gateway :=
  { extractResp := fun _ => .conforming ⟨"email request", false, 9/10⟩
    parseResp := fun _ => .malformed "NoneType"
    confirmResp := fun _ => .malformed "NoneType" }

/-- Chaining gateway returning a confidence score above 1. -/
def cgwHigh : Chaining.Gateway :=
  { extractResp := fun _ => .conforming ⟨"team meeting", true, 3/2⟩
    parseResp := fun _ => .conforming dPass
    confirmResp := fun _ => .conforming cPass }

/-- Chaining gateway returning a negative confidence score. -/
def cgwLow : Chaining.Gateway :=
  { extractResp := fun _ => .conforming ⟨"team meeting", true, -(1/2)⟩
    parseResp := fun _ => .conforming dPass
    confirmResp := fun _ => .conforming cPass }

/-- Chaining gateway returning a non-conforming payload at every stage. -/
def cgwMal : Chaining.Gateway :=
  { extractResp := fun _ => .malformed "NoneType"
    parseResp := fun _ => .malformed "NoneType"
    confirmResp := fun _ => .malformed "NoneType" }

/-- A concrete `NewEventDetails` value. -/
def ndPass : Routing.NewEventDetails :=
  { name := "Standup"
    date := "2026-01-06T14:00:00"
    duration_minutes := 30
    participants := ["Alice", "Bob"] }

/-- A concrete `ModifyEventDetails` value. -/
def mdPass : Routing.ModifyEventDetails :=
  { event_identifier := "team meeting"
    changes := [{ field := "time", new_value := "3pm" }]
    participants_to_add := []
    participants_to_remove := [] }

/-- Routing gateway routing to `new_event` with high confidence. -/
def rgwNew : Routing.Gateway :=
  { routeResp := fun _ => .conforming ⟨.new_event, 9/10, "schedule standup"⟩
    newEventResp := fun _ => .conforming ndPass
    modifyEventResp := fun _ => .malformed "NoneType" }

/-- Routing gateway routing to `modify_event` with high confidence. -/
def rgwMod : Routing.Gateway :=
  { routeResp := fun _ => .conforming ⟨.modify_event, 9/10, "move the meeting"⟩
    newEventResp := fun _ => .malformed "NoneType"
    modifyEventResp := fun _ => .conforming mdPass }

/-- Routing gateway routing to the unhandled `other` tag. -/
def rgwOther : Routing.Gateway :=
  { routeResp := fun _ => .conforming ⟨.other, 9/10, "weather"⟩
    newEventResp := fun _ => .conforming ndPass
    modifyEventResp := fun _ => .conforming mdPass }

/-- Routing gateway returning low confidence. -/
def rgwLow : Routing.Gateway :=
  { routeResp := fun _ => .conforming ⟨.new_event, 1/2, "maybe"⟩
    newEventResp := fun _ => .conforming ndPass
    modifyEventResp := fun _ => .conforming mdPass }

/-- Routing gateway returning a confidence score above 1. -/
def rgwHigh : Routing.Gateway :=
  { routeResp := fun _ => .conforming ⟨.new_event, 3/2, "schedule"⟩
    newEventResp := fun _ => .conforming ndPass
    modifyEventResp := fun _ => .conforming mdPass }

/-- Routing gateway returning a non-conforming payload at every stage. -/
def rgwMal : Routing.Gateway :=
  { routeResp := fun _ => .malformed "NoneType"
    newEventResp := fun _ => .malformed "NoneType"
    modifyEventResp := fun _ => .malformed "NoneType" }

/-- The response the new-event handler builds from `ndPass`. -/
def rNewResp : Routing.CalendarResponse :=
  { success := true
    message := "Created new event \x27Standup\x27 for 2026-01-06T14:00:00 with Alice, Bob"
    calendar_link := some "calendar>//new?event=Standup" }

/-- C1: if the stage-1 extraction has `is_calendar_event` false or
`confidence_score < 0.7`, the chaining orchestrator returns `None` (a
normal, non-error outcome) and its call trace contains only the stage-1
call — stage 2 and stage 3 are never invoked. -/
theorem C1_chaining_gate_fail_short_circuits (gw : Chaining.Gateway) (u : String)
    (e : Chaining.EventExtraction)
    (hresp : gw.extractResp u = .conforming e)
    (hgate : e.is_calendar_event = false ∨ e.confidence_score < 7/10) :
    Chaining.process_calendar_request gw u = ([Stage.extractStage], .ok none) := by
  simp only [Chaining.process_calendar_request, Chaining.extract_event_info, hresp]
  rw [if_pos hgate]

/-- C1 witness: a gateway classifying the input as not a calendar event
makes the orchestrator return `None` after the single extraction call. -/
theorem C1_witness :
    Chaining.process_calendar_request cgwNeg "Send an email to Alice" =
      ([Stage.extractStage], Except.ok none) :=
  C1_chaining_gate_fail_short_circuits cgwNeg "Send an email to Alice"
    ⟨"email request", false, 9/10⟩ rfl (Or.inl rfl)

/-- C2: if the stage-1 extraction conforms, is classified as a calendar
event and has confidence at least 0.7, the orchestrator calls stage 2 on
the stage-1 description, stage 3 on the stage-2 output, and returns exactly
the stage-3 confirmation. -/
theorem C2_chaining_composition (gw : Chaining.Gateway) (u : String)
    (e : Chaining.EventExtraction) (d : Chaining.EventDetails)
    (c : Chaining.EventConfirmation)
    (hresp : gw.extractResp u = .conforming e)
    (hflag : e.is_calendar_event = true)
    (hconf : 7/10 ≤ e.confidence_score)
    (hd : gw.parseResp e.description = .conforming d)
    (hc : gw.confirmResp d = .conforming c) :
    Chaining.process_calendar_request gw u =
      ([Stage.extractStage, Stage.parseStage, Stage.confirmStage], .ok (some c)) ∧
    (Chaining.parse_event_details gw e.description).2 = .ok d ∧
    (Chaining.generate_confirmation gw d).2 = .ok c := by
  have hgate : ¬(e.is_calendar_event = false ∨ e.confidence_score < 7/10) := by
    rintro (h | h)
    · rw [hflag] at h; exact Bool.noConfusion h
    · exact absurd hconf (not_le.mpr h)
  refine ⟨?_, ?_, ?_⟩
  · simp only [Chaining.process_calendar_request, Chaining.extract_event_info,
      Chaining.parse_event_details, Chaining.generate_confirmation, hresp, hd, hc]
    rw [if_neg hgate]
    rfl
  · simp only [Chaining.parse_event_details, hd]
  · simp only [Chaining.generate_confirmation, hc]

/-- C2 witness: with a conforming pass-through gateway the orchestrator
returns the stage-3 confirmation after the three calls in order. -/
theorem C2_witness :
    (Chaining.process_calendar_request cgwPass "Schedule a meeting" =
      ([Stage.extractStage, Stage.parseStage, Stage.confirmStage],
        Except.ok (some cPass)) ∧
    (Chaining.parse_event_details cgwPass "team meeting").2 = Except.ok dPass ∧
    (Chaining.generate_confirmation cgwPass dPass).2 = Except.ok cPass) :=
  C2_chaining_composition cgwPass "Schedule a meeting"
    ⟨"team meeting", true, 9/10⟩ dPass cPass rfl rfl (by norm_num) rfl rfl

/-- C3: if the conforming result of the routing stage has confidence below 0.7,
the routing orchestrator returns `None` whatever the discriminant tag, and
its call trace contains only the routing call — no handler is invoked. -/
theorem C3_routing_low_confidence_returns_none (gw : Routing.Gateway) (u : String)
    (r : Routing.CalendarRequestType)
    (hresp : gw.routeResp u = .conforming r)
    (hconf : r.confidence_score < 7/10) :
    Routing.process_calendar_request gw u = ([Stage.routeStage], .ok none) := by
  simp only [Routing.process_calendar_request, Routing.route_calendar_request, hresp]
  rw [if_pos hconf]

/-- C3 witness: a routing result with confidence 0.5 yields `None` after
the single routing call. -/
theorem C3_witness :
    Routing.process_calendar_request rgwLow "maybe a meeting" =
      ([Stage.routeStage], Except.ok none) :=
  C3_routing_low_confidence_returns_none rgwLow "maybe a meeting"
    ⟨.new_event, 1/2, "maybe"⟩ rfl (by norm_num)

/-- C4: a conforming routing result with the unhandled `other` tag and
confidence at least 0.7 makes the orchestrator return `None` (not an
error), with no handler invoked. -/
theorem C4_routing_unmatched_tag_returns_none (gw : Routing.Gateway) (u : String)
    (r : Routing.CalendarRequestType)
    (hresp : gw.routeResp u = .conforming r)
    (htag : r.request_type = .other)
    (hconf : 7/10 ≤ r.confidence_score) :
    Routing.process_calendar_request gw u = ([Stage.routeStage], .ok none) := by
  simp only [Routing.process_calendar_request, Routing.route_calendar_request, hresp]
  rw [if_neg (not_lt.mpr hconf), htag]

/-- C4 witness: the `other` tag with confidence 0.9 yields `None` after
the single routing call. -/
theorem C4_witness :
    Routing.process_calendar_request rgwOther "weather today" =
      ([Stage.routeStage], Except.ok none) :=
  C4_routing_unmatched_tag_returns_none rgwOther "weather today"
    ⟨.other, 9/10, "weather"⟩ rfl rfl (by norm_num)

/-- C5: with confidence at least 0.7, tag `new_event` dispatches to exactly
`handle_new_event` on the routed description and returns its result, tag
`modify_event` symmetrically to `handle_modify_event`; and in every run the
call trace contains at most one handler invocation. -/
theorem C5_routing_dispatch (gw : Routing.Gateway) (u : String)
    (r : Routing.CalendarRequestType)
    (hresp : gw.routeResp u = .conforming r)
    (hconf : 7/10 ≤ r.confidence_score) :
    (r.request_type = .new_event →
      Routing.process_calendar_request gw u =
        ([Stage.routeStage, Stage.newEventStage],
          (Routing.handle_new_event gw r.description).2.map some)) ∧
    (r.request_type = .modify_event →
      Routing.process_calendar_request gw u =
        ([Stage.routeStage, Stage.modifyEventStage],
          (Routing.handle_modify_event gw r.description).2.map some)) ∧
    (∀ (gw2 : Routing.Gateway) (u2 : String),
      ((Routing.process_calendar_request gw2 u2).1.countP Stage.isHandler) ≤ 1) := by
  refine ⟨?_, ?_, ?_⟩
  · intro htag
    simp only [Routing.process_calendar_request, Routing.route_calendar_request, hresp]
    rw [if_neg (not_lt.mpr hconf), htag]
    rfl
  · intro htag
    simp only [Routing.process_calendar_request, Routing.route_calendar_request, hresp]
    rw [if_neg (not_lt.mpr hconf), htag]
    rfl
  · intro gw2 u2
    simp only [Routing.process_calendar_request, Routing.route_calendar_request,
      Routing.handle_new_event, Routing.handle_modify_event]
    cases gw2.routeResp u2 with
    | malformed t => simp [List.countP, List.countP.go, Stage.isHandler]
    | conforming r2 =>
      cases htag : r2.request_type <;> by_cases hc : r2.confidence_score < 7/10 <;>
        simp [htag, hc, List.countP, List.countP.go, Stage.isHandler]

/-- C5 witness: the `new_event` tag with confidence 0.9 dispatches to the
new-event handler on the routed description. -/
theorem C5_witness :
    (Routing.process_calendar_request rgwNew "Schedule a standup" =
      ([Stage.routeStage, Stage.newEventStage],
        (Routing.handle_new_event rgwNew "schedule standup").2.map some)) :=
  (C5_routing_dispatch rgwNew "Schedule a standup"
    ⟨.new_event, 9/10, "schedule standup"⟩ rfl (by norm_num)).1 rfl

/-- C6: every stage returns a value exactly when the gateway payload
conforms to its declared schema, and aborts with the fatal assert error
when it does not; no stage returns a non-conforming or partially validated
value. -/
theorem C6_schema_validation_aborts :
    (∀ (gw : Chaining.Gateway) (u : String) (v : Chaining.EventExtraction),
        (Chaining.extract_event_info gw u).2 = .ok v ↔ gw.extractResp u = .conforming v) ∧
    (∀ (gw : Chaining.Gateway) (u t : String),
        gw.extractResp u = .malformed t →
        (Chaining.extract_event_info gw u).2 =
          .error ("Expected EventExtraction, got " ++ t)) ∧
    (∀ (gw : Chaining.Gateway) (s : String) (v : Chaining.EventDetails),
        (Chaining.parse_event_details gw s).2 = .ok v ↔ gw.parseResp s = .conforming v) ∧
    (∀ (gw : Chaining.Gateway) (s t : String),
        gw.parseResp s = .malformed t →
        (Chaining.parse_event_details gw s).2 =
          .error ("Expected EventDetails, fot " ++ t)) ∧
    (∀ (gw : Chaining.Gateway) (d : Chaining.EventDetails) (v : Chaining.EventConfirmation),
        (Chaining.generate_confirmation gw d).2 = .ok v ↔ gw.confirmResp d = .conforming v) ∧
    (∀ (gw : Chaining.Gateway) (d : Chaining.EventDetails) (t : String),
        gw.confirmResp d = .malformed t →
        (Chaining.generate_confirmation gw d).2 =
          .error ("Expected EventConfirmation, fot " ++ t)) ∧
    (∀ (gw : Routing.Gateway) (u : String) (v : Routing.CalendarRequestType),
        (Routing.route_calendar_request gw u).2 = .ok v ↔ gw.routeResp u = .conforming v) ∧
    (∀ (gw : Routing.Gateway) (u t : String),
        gw.routeResp u = .malformed t →
        (Routing.route_calendar_request gw u).2 =
          .error ("Expected CalendarRequestType, got " ++ t)) ∧
    (∀ (gw : Routing.Gateway) (s t : String),
        gw.newEventResp s = .malformed t →
        (Routing.handle_new_event gw s).2 =
          .error ("Expected NewEventDetails, got " ++ t)) ∧
    (∀ (gw : Routing.Gateway) (s t : String),
        gw.modifyEventResp s = .malformed t →
        (Routing.handle_modify_event gw s).2 =
          .error ("Expected ModifyEventDetails, got " ++ t)) := by
  refine ⟨?_, ?_, ?_, ?_, ?_, ?_, ?_, ?_, ?_, ?_⟩
  · intro gw u v
    simp only [Chaining.extract_event_info]
    cases h : gw.extractResp u <;> simp
  · intro gw u t h
    simp [Chaining.extract_event_info, h]
  · intro gw s v
    simp only [Chaining.parse_event_details]
    cases h : gw.parseResp s <;> simp
  · intro gw s t h
    simp [Chaining.parse_event_details, h]
  · intro gw d v
    simp only [Chaining.generate_confirmation]
    cases h : gw.confirmResp d <;> simp
  · intro gw d t h
    simp [Chaining.generate_confirmation, h]
  · intro gw u v
    simp only [Routing.route_calendar_request]
    cases h : gw.routeResp u <;> simp
  · intro gw u t h
    simp [Routing.route_calendar_request, h]
  · intro gw s t h
    simp [Routing.handle_new_event, h]
  · intro gw s t h
    simp [Routing.handle_modify_event, h]

/-- C6 witness: a gateway returning a NoneType payload at stage 1 makes
the extraction stage abort with the assert error message. -/
theorem C6_witness :
    (Chaining.extract_event_info cgwMal "Schedule a meeting").2 =
      Except.error ("Expected EventExtraction, got NoneType") :=
  C6_schema_validation_aborts.2.1 cgwMal "Schedule a meeting" "NoneType" rfl

/-- C7: confidence scores are compared raw against 0.7 with no clamping to
[0,1]: with a positive classification (chaining) or a `new_event` tag
(routing), the pipeline proceeds past the gate exactly when the returned
score is at least 7/10 — including scores above 1 — and stops for every
smaller score, including negative ones. -/
theorem C7_raw_confidence_no_clamping :
    (∀ (gw : Chaining.Gateway) (u : String) (e : Chaining.EventExtraction),
        gw.extractResp u = .conforming e → e.is_calendar_event = true →
        (Stage.parseStage ∈ (Chaining.process_calendar_request gw u).1 ↔
          7/10 ≤ e.confidence_score)) ∧
    (∀ (gw : Routing.Gateway) (u : String) (r : Routing.CalendarRequestType),
        gw.routeResp u = .conforming r → r.request_type = .new_event →
        (Stage.newEventStage ∈ (Routing.process_calendar_request gw u).1 ↔
          7/10 ≤ r.confidence_score)) := by
  constructor
  · intro gw u e hresp hflag
    simp only [Chaining.process_calendar_request, Chaining.extract_event_info,
      Chaining.parse_event_details, Chaining.generate_confirmation, hresp]
    by_cases hc : e.confidence_score < 7/10
    · rw [if_pos (Or.inr hc)]
      simp [not_le.mpr hc]
    · have hgate : ¬(e.is_calendar_event = false ∨ e.confidence_score < 7/10) := by
        rintro (h | h)
        · rw [hflag] at h; exact Bool.noConfusion h
        · exact hc h
      rw [if_neg hgate]
      cases h2 : gw.parseResp e.description with
      | conforming d =>
        cases h3 : gw.confirmResp d <;> simp [h2, h3, not_lt.mp hc]
      | malformed t2 => simp [h2, not_lt.mp hc]
  · intro gw u r hresp htag
    simp only [Routing.process_calendar_request, Routing.route_calendar_request,
      Routing.handle_new_event, hresp]
    by_cases hc : r.confidence_score < 7/10
    · rw [if_pos hc]
      simp [not_le.mpr hc]
    · rw [if_neg hc, htag]
      simp [not_lt.mp hc]

/-- C7 witness: a confidence of 3/2 (above 1) passes the chaining gate and
stage 2 is invoked; a confidence of -1/2 fails it and stage 2 is not. -/
theorem C7_witness :
    (Stage.parseStage ∈ (Chaining.process_calendar_request cgwHigh "Plan it").1 ↔
      (7:ℚ)/10 ≤ 3/2) ∧
    (Stage.parseStage ∈ (Chaining.process_calendar_request cgwLow "Plan it").1 ↔
      (7:ℚ)/10 ≤ -(1/2)) :=
  ⟨C7_raw_confidence_no_clamping.1 cgwHigh "Plan it" ⟨"team meeting", true, 3/2⟩ rfl rfl,
   C7_raw_confidence_no_clamping.1 cgwLow "Plan it" ⟨"team meeting", true, -(1/2)⟩ rfl rfl⟩

/-- Deserializing a serialized string list recovers the list. -/
theorem jstrList_roundtrip (l : List String) :
    jstrList (JValue.jarr (l.map JValue.jstr)) = some l := by
  show jloadStrs (l.map JValue.jstr) = some l
  induction l with
  | nil => rfl
  | cons x xs ih =>
    show (match jloadStrs (xs.map JValue.jstr) with
      | some ss => some (x :: ss)
      | none => none) = some (x :: xs)
    rw [ih]

/-- Round-trip for a single serialized `Change`. -/
theorem change_roundtrip (c : Routing.Change) :
    Routing.Change.model_validate c.model_dump = some c := rfl

/-- Deserializing a serialized change list recovers the list. -/
theorem changeList_roundtrip (l : List Routing.Change) :
    Routing.jloadChanges (l.map Routing.Change.model_dump) = some l := by
  induction l with
  | nil => rfl
  | cons x xs ih =>
    show (match Routing.Change.model_validate x.model_dump,
        Routing.jloadChanges (xs.map Routing.Change.model_dump) with
      | some c, some cs => some (c :: cs)
      | _, _ => none) = some (x :: xs)
    rw [ih, change_roundtrip]

/-- Round-trip for the serialized `request_type` literal. -/
theorem requestType_roundtrip (t : Routing.RequestType) :
    Routing.RequestType.ofStr t.toStr = some t := by
  cases t <;> rfl

/-- Round-trip for `EventDetails`. -/
theorem eventDetails_roundtrip (e : Chaining.EventDetails) :
    Chaining.EventDetails.model_validate e.model_dump = some e := by
  obtain ⟨n, d, m, ps⟩ := e
  show (jstrList (JValue.jarr (ps.map JValue.jstr))).map
      (fun ps2 => (⟨n, d, m, ps2⟩ : Chaining.EventDetails)) = some ⟨n, d, m, ps⟩
  rw [jstrList_roundtrip]
  rfl

/-- Round-trip for `NewEventDetails`. -/
theorem newEventDetails_roundtrip (e : Routing.NewEventDetails) :
    Routing.NewEventDetails.model_validate e.model_dump = some e := by
  obtain ⟨n, d, m, ps⟩ := e
  show (jstrList (JValue.jarr (ps.map JValue.jstr))).map
      (fun ps2 => (⟨n, d, m, ps2⟩ : Routing.NewEventDetails)) = some ⟨n, d, m, ps⟩
  rw [jstrList_roundtrip]
  rfl

/-- Round-trip for `ModifyEventDetails`. -/
theorem modifyEventDetails_roundtrip (e : Routing.ModifyEventDetails) :
    Routing.ModifyEventDetails.model_validate e.model_dump = some e := by
  obtain ⟨i, cs, pa, pr⟩ := e
  show (Routing.jloadChanges (cs.map Routing.Change.model_dump)).bind (fun cs2 =>
      (jstrList (JValue.jarr (pa.map JValue.jstr))).bind (fun pa2 =>
        (jstrList (JValue.jarr (pr.map JValue.jstr))).map
          (fun pr2 => (⟨i, cs2, pa2, pr2⟩ : Routing.ModifyEventDetails)))) =
      some ⟨i, cs, pa, pr⟩
  rw [changeList_roundtrip, Option.some_bind, jstrList_roundtrip, Option.some_bind,
    jstrList_roundtrip]
  rfl

/-- Round-trip for `CalendarRequestType`. -/
theorem calendarRequestType_roundtrip (r : Routing.CalendarRequestType) :
    Routing.CalendarRequestType.model_validate r.model_dump = some r := by
  obtain ⟨t, c, d⟩ := r
  cases t <;> rfl

/-- C8: serializing a value of any of the seven declared stage schemas and
validating it back into the same schema recovers the value exactly, with
no field loss. -/
theorem C8_serialization_roundtrip :
    (∀ e : Chaining.EventExtraction,
        Chaining.EventExtraction.model_validate e.model_dump = some e) ∧
    (∀ e : Chaining.EventDetails,
        Chaining.EventDetails.model_validate e.model_dump = some e) ∧
    (∀ e : Chaining.EventConfirmation,
        Chaining.EventConfirmation.model_validate e.model_dump = some e) ∧
    (∀ r : Routing.CalendarRequestType,
        Routing.CalendarRequestType.model_validate r.model_dump = some r) ∧
    (∀ e : Routing.NewEventDetails,
        Routing.NewEventDetails.model_validate e.model_dump = some e) ∧
    (∀ e : Routing.ModifyEventDetails,
        Routing.ModifyEventDetails.model_validate e.model_dump = some e) ∧
    (∀ r : Routing.CalendarResponse,
        Routing.CalendarResponse.model_validate r.model_dump = some r) := by
  refine ⟨?_, eventDetails_roundtrip, ?_, calendarRequestType_roundtrip,
    newEventDetails_roundtrip, modifyEventDetails_roundtrip, ?_⟩
  · intro e
    rfl
  · intro e
    obtain ⟨m, l⟩ := e
    cases l <;> rfl
  · intro r
    obtain ⟨s, m, l⟩ := r
    cases l <;> rfl

/-- C9: whenever the routing orchestrator returns a response, that
response has `success = true` and a populated calendar link — both
handlers construct their responses that way unconditionally. -/
theorem C9_routing_success_invariant (gw : Routing.Gateway) (u : String)
    (resp : Routing.CalendarResponse)
    (h : (Routing.process_calendar_request gw u).2 = .ok (some resp)) :
    resp.success = true ∧ ∃ l, resp.calendar_link = some l := by
  simp only [Routing.process_calendar_request, Routing.route_calendar_request,
    Routing.handle_new_event, Routing.handle_modify_event] at h
  cases hr : gw.routeResp u with
  | malformed t =>
    simp only [hr] at h
    exact Except.noConfusion h
  | conforming r =>
    simp only [hr] at h
    by_cases hc : r.confidence_score < 7/10
    · rw [if_pos hc] at h
      simp at h
    · rw [if_neg hc] at h
      cases htag : r.request_type with
      | other => simp only [htag] at h; simp at h
      | new_event =>
        simp only [htag] at h
        cases hne : gw.newEventResp r.description with
        | malformed t => simp only [hne] at h; simp [Except.map] at h
        | conforming nd =>
          simp only [hne] at h
          simp [Except.map] at h
          subst h
          exact ⟨rfl, _, rfl⟩
      | modify_event =>
        simp only [htag] at h
        cases hme : gw.modifyEventResp r.description with
        | malformed t => simp only [hme] at h; simp [Except.map] at h
        | conforming md =>
          simp only [hme] at h
          simp [Except.map] at h
          subst h
          exact ⟨rfl, _, rfl⟩

/-- Evaluating the routing pipeline on the concrete `rgwNew` oracle. -/
theorem rgwNew_run :
    (Routing.process_calendar_request rgwNew "Schedule a standup").2 =
      .ok (some rNewResp) := by
  simp only [Routing.process_calendar_request, Routing.route_calendar_request,
    Routing.handle_new_event, rgwNew, ndPass, rNewResp]
  rw [if_neg (by norm_num : ¬((9:ℚ)/10 < 7/10))]
  rfl

/-- C9 witness: the concrete new-event run returns a response with
`success = true` and a calendar link. -/
theorem C9_witness :
    rNewResp.success = true ∧ ∃ l, rNewResp.calendar_link = some l :=
  C9_routing_success_invariant rgwNew "Schedule a standup" rNewResp rgwNew_run

/-- C10: the handlers build their final responses locally and
deterministically from the extracted details: the new-event handler
message and link are exactly the documented formats (including the
`calendar>//new` link typo), and symmetrically for the modify handler. -/
theorem C10_handler_responses (gw : Routing.Gateway) (s : String)
    (nd : Routing.NewEventDetails) (md : Routing.ModifyEventDetails)
    (hn : gw.newEventResp s = .conforming nd)
    (hm : gw.modifyEventResp s = .conforming md) :
    (Routing.handle_new_event gw s).2 =
      .ok { success := true
            message := "Created new event \x27" ++ nd.name ++ "\x27 for " ++ nd.date ++
              " with " ++ String.intercalate ", " nd.participants
            calendar_link := some ("calendar>//new?event=" ++ nd.name) } ∧
    (Routing.handle_modify_event gw s).2 =
      .ok { success := true
            message := "Modified event \x27" ++ md.event_identifier ++
              "\x27 with the requested changes"
            calendar_link := some ("calendar://modify?event=" ++ md.event_identifier) } := by
  constructor
  · simp [Routing.handle_new_event, hn]
  · simp [Routing.handle_modify_event, hm]

/-- C10 witness: on a gateway returning `ndPass` and `mdPass`, the two
handlers produce exactly the documented message and link formats. -/
theorem C10_witness :
    ((Routing.handle_new_event rgwOther "weather").2 =
      .ok { success := true
            message := "Created new event \x27" ++ ndPass.name ++ "\x27 for " ++ ndPass.date ++
              " with " ++ String.intercalate ", " ndPass.participants
            calendar_link := some ("calendar>//new?event=" ++ ndPass.name) } ∧
    (Routing.handle_modify_event rgwOther "weather").2 =
      .ok { success := true
            message := "Modified event \x27" ++ mdPass.event_identifier ++
              "\x27 with the requested changes"
            calendar_link := some ("calendar://modify?event=" ++ mdPass.event_identifier) }) :=
  C10_handler_responses rgwOther "weather" ndPass mdPass rfl rfl
